import Mathlib

/-!
Verification of the parameter-sweep and grid-construction logic of the
ForceCalculations notebooks (`src/unnamed/part_000` and
`src/two-three/two_three_forces.ipynb`).

The notebooks build velocity/position grids with `np.linspace`, `np.arange`,
`np.concatenate` and `np.meshgrid`, then loop over a dictionary of
polarization configurations, calling the external library's
`generate_force_profile` once per configuration and storing the result under
the configuration's label.  We embed `linspace` with exact rational
arithmetic (faithful for `part_000`, where numpy pins both endpoints
exactly), the float `arange` of `two_three_forces.ipynb` with exact IEEE-754
binary64 semantics — each double represented as the integer `value * 2^64`,
with round-to-nearest-even implemented by integer arithmetic — because the
binary64 length rule `⌈fl(fl(stop - start)/step)⌉` yields extra boundary
samples that exact rationals miss, the sweep loop as a recursion over the
configuration association list, and the external force evaluation (whose
code lives in the third-party `pylcp` library, not in this repository) as a
function modelled from the spec's contract for it.
-/

set_option maxRecDepth 1000000

namespace ForceCalculations

/-- Exact-rational embedding of `np.linspace(a, b, num)` with the default
`endpoint=True`: `num` evenly spaced samples from `a` to `b` inclusive
(`numpy` sets the last sample to exactly `b`; over `ℚ` the closed formula
already does so). -/
def linspace (a b : ℚ) (num : ℕ) : List ℚ :=
  if num = 0 then []
  else if num = 1 then [a]
  else (List.range num).map (fun i => a + i * ((b - a) / (num - 1)))

/-- Binary length of a natural number (number of base-2 digits), by fuelled
structural recursion so that it kernel-reduces; 4096 bits of fuel far
exceeds the width of any operand arising from binary64 values here. -/
def bitsAux : ℕ → ℕ → ℕ
  | 0, _ => 0
  | fuel + 1, n => if n = 0 then 0 else bitsAux fuel (n / 2) + 1

/-- Binary length of a natural number: `bits 0 = 0`, `bits 5 = 3`. -/
def bits (n : ℕ) : ℕ := bitsAux 4096 n

/-- Round the fraction `num / den` (with `den > 0`) to the nearest IEEE-754
binary64 value, ties to even, returning that value scaled by `2^64` — exact
whenever the result has magnitude at least `2^-12` (or is zero), which holds
for every quantity in the notebooks' grids.  The exponent `e = ⌊log₂ |q|⌋`
is found from the binary lengths of numerator and denominator, the 53-bit
mantissa `m ∈ [2^52, 2^53]` by one integer division with round-half-to-even
on the remainder.  Pure integer arithmetic throughout, so it reduces in the
kernel. -/
def roundScaled (num den : ℤ) : ℤ :=
  if num = 0 then 0
  else
    let n := num.natAbs
    let d := den.natAbs
    let t : ℤ := (bits n : ℤ) - (bits d : ℤ)
    let ge : Bool :=
      if 0 ≤ t then decide (2 ^ t.toNat * d ≤ n) else decide (d ≤ 2 ^ (-t).toNat * n)
    let e : ℤ := if ge then t else t - 1
    let s : ℤ := 52 - e
    let N := n * 2 ^ s.toNat
    let D := d * 2 ^ (-s).toNat
    let m0 := N / D
    let r := N % D
    let m : ℕ :=
      if 2 * r < D then m0
      else if D < 2 * r then m0 + 1
      else if m0 % 2 = 0 then m0 else m0 + 1
    let p : ℤ := e + 12
    let mag : ℕ := m * 2 ^ p.toNat / 2 ^ (-p).toNat
    if num < 0 then -(mag : ℤ) else (mag : ℤ)

/-- Binary64 addition on `2^64`-scaled values: round the exact sum. -/
def fadd64 (a b : ℤ) : ℤ := roundScaled (a + b) (2 ^ 64)

/-- Binary64 subtraction on `2^64`-scaled values: round the exact
difference. -/
def fsub64 (a b : ℤ) : ℤ := roundScaled (a - b) (2 ^ 64)

/-- Binary64 multiplication on `2^64`-scaled values: the exact product
carries scale `2^128`, so round `a * b / 2^128`. -/
def fmul64 (a b : ℤ) : ℤ := roundScaled (a * b) (2 ^ 128)

/-- Binary64 division on `2^64`-scaled values: the scales cancel, so round
the exact integer ratio. -/
def fdiv64 (a b : ℤ) : ℤ := roundScaled a b

/-- The binary64 value of a decimal literal (Python converts source
literals such as `0.01` to the nearest double), `2^64`-scaled. -/
def toF64 (q : ℚ) : ℤ := roundScaled q.num (q.den : ℤ)

/-- Exact ceiling of a `2^64`-scaled value, as C's `ceil` applied to the
(exactly represented) binary64 quotient: `⌈z / 2^64⌉ = -⌊-z / 2^64⌋`. -/
def ceil64 (z : ℤ) : ℤ := -(Int.fdiv (-z) (2 ^ 64))

/-- Binary64-faithful embedding of `np.arange(start, stop, step)` for float
arguments, following numpy's implementation (`PyArray_Arange` with the
double-precision fill loop): the decimal literals are taken to their nearest
binary64 values; the length is `⌈fl(fl(stop - start) / step)⌉` with both
operations in binary64; element `0` is `start`, element `1` is
`fl(start + step)`, and element `i ≥ 2` is `fl(start + fl(i * delta))` with
`delta = fl(fl(start + step) - start)`.  Elements are binary64 values
represented exactly as integers scaled by `2^64`. -/
def arange (start stop step : ℚ) : List ℤ :=
  let a := toF64 start
  let b := toF64 stop
  let st := toF64 step
  let n := (ceil64 (fdiv64 (fsub64 b a) st)).toNat
  if n = 0 then []
  else if n = 1 then [a]
  else
    let a1 := fadd64 a st
    let delta := fsub64 a1 a
    a :: a1 ::
      (List.range (n - 2)).map (fun i => fadd64 a (fmul64 (((i : ℤ) + 2) * 2 ^ 64) delta))

/-- First output of `np.meshgrid(x, v)` with the default `indexing='xy'`:
a matrix of shape `(v.length, x.length)` whose row `i` is `x`. -/
def meshgridX (x v : List ℚ) : List (List ℚ) :=
  v.map (fun _ => x)

/-- Second output of `np.meshgrid(x, v)` with the default `indexing='xy'`:
a matrix of shape `(v.length, x.length)` whose row `i` is constantly
`v[i]`. -/
def meshgridV (x v : List ℚ) : List (List ℚ) :=
  v.map (fun vi => x.map (fun _ => vi))

/-- Embedding of `np.zeros(A.shape)` for a 2-D array `A`. -/
def zerosLike (A : List (List ℚ)) : List (List ℚ) :=
  A.map (fun r => r.map (fun _ => 0))

/-- The list of `(position, velocity)` pairs of the coordinate grid built
from a position sequence `x` and a velocity sequence `v` (row `i` of the
mesh pairs every `x[j]` with `v[i]`, matching `np.meshgrid(x, v)`). -/
def gridPairs (x v : List ℚ) : List (ℚ × ℚ) :=
  v.flatMap (fun vi => x.map (fun xj => (xj, vi)))

/-- The position sequence of `part_000`: `np.linspace(0.0, 0.0, num=1)`. -/
def x_part000 : List ℚ := linspace 0 0 1

/-- The velocity sequence of `part_000`:
`np.concatenate((np.linspace(1e-2, 0.5, num=10), np.linspace(0.5, 2.5, num=5)))`. -/
def v_part000 : List ℚ := linspace (1/100) (1/2) 10 ++ linspace (1/2) (5/2) 5

/-- The velocity sequence of `two_three_forces.ipynb`: the concatenation of
ten float `np.arange` segments from `-5.1` up to `5.0`, in binary64
semantics (`2^64`-scaled integers).  The binary64 length rule gives the
segments `-0.1 → -0.03` and `0.03 → 0.1` eight samples each (the double
quotient is `7.000000000000001`, whose ceiling is `8`), for 148 samples in
total. -/
def v_two_three : List ℤ :=
  arange (-51/10) (-1/10) (1/10) ++ arange (-1/10) (-3/100) (1/100) ++
  arange (-3/100) (-1/50) (1/200) ++ arange (-1/50) (-1/100) (1/500) ++
  arange (-1/100) (-1/1000) (1/1000) ++ arange (1/1000) (1/100) (1/1000) ++
  arange (1/100) (1/50) (1/500) ++ arange (1/50) (3/100) (1/200) ++
  arange (3/100) (1/10) (1/100) ++ arange (1/10) (51/10) (1/10)

/-- The `(position, velocity)` grid of `two_three_forces.ipynb`: the position
arrays passed to the force evaluation are `np.zeros(v.shape)`, so every grid
point pairs position `0` with one entry of `v` (both coordinates
`2^64`-scaled binary64 values; position `0` scales to `0`). -/
def gridPairs_two_three : List (ℤ × ℤ) :=
  v_two_three.map (fun z => ((0 : ℤ), z))

theorem v_part000_length : v_part000.length = 15 :=
  of_decide_eq_true (by with_unfolding_all rfl)

theorem v_two_three_length : v_two_three.length = 148 :=
  of_decide_eq_true (by with_unfolding_all rfl)

/-- Validation of the binary64 model against textbook IEEE-754 facts:
the doubles `0.1` and `0.2` sum to `0.30000000000000004`, exceeding the
double `0.3` by exactly `2^-54` (scaled: `2^10`), and `10^16 + 1` — an exact
tie between the neighbouring doubles `10^16` and `10^16 + 2` — rounds to the
even mantissa, `10^16`. -/
theorem float_model_validation :
    fadd64 (toF64 (1/10)) (toF64 (2/10)) - toF64 (3/10) = 2 ^ 10
    ∧ toF64 (10 ^ 16 + 1) = 10 ^ 16 * 2 ^ 64
    ∧ toF64 (1/10) = 1844674407370955264
    ∧ toF64 5 = 5 * 2 ^ 64 :=
  ⟨by with_unfolding_all rfl, by with_unfolding_all rfl,
    by with_unfolding_all rfl, by with_unfolding_all rfl⟩

/-- The boundary behaviour that creates the two extra samples: the binary64
computation `fl(fl(-0.03 - -0.1) / 0.01)` is strictly above `7`, so the
segments with exact-rational length `7` get eight samples, and the eighth
sample of `np.arange(0.03, 0.1, 0.01)` is exactly the double `0.1` — the
first sample of `np.arange(0.1, 5.1, 0.1)`. -/
theorem arange_boundary_samples :
    (arange (-1/10) (-3/100) (1/100)).length = 8
    ∧ (arange (3/100) (1/10) (1/100)).length = 8
    ∧ (arange (3/100) (1/10) (1/100)).getLast? = some (toF64 (1/10))
    ∧ (arange (1/10) (51/10) (1/10)).head? = some (toF64 (1/10)) :=
  ⟨by with_unfolding_all rfl, by with_unfolding_all rfl,
    by with_unfolding_all rfl, by with_unfolding_all rfl⟩

/-! ### The external force evaluation, modelled from the spec -/

/-- Entry `(i, j)` of a 2-D array, with `0` as the out-of-range default. -/
def idx2 (A : List (List ℚ)) (i j : ℕ) : ℚ :=
  (A.getD i []).getD j 0

/-- Modelled from the spec: the external library's `generate_force_profile`
method (of `pylcp.obe` / `pylcp.rateeq` objects; its code lives in the
third-party `pylcp` library, not in this repository).  Per the spec's
contract it receives position and velocity component grids, computes one
3-component force vector per grid point — so the stored force array has
three components, each of the input grid's shape — and, when the
progress-bar flag is set, additionally reports progress to the console,
which is observational output only.  The pointwise physics `f` (position,
velocity, component ↦ force) is an abstract parameter.  The first result
component is the stored force array, the second the console output. -/
def generate_force_profile
    (f : (Fin 3 → ℚ) → (Fin 3 → ℚ) → Fin 3 → ℚ)
    (R V : Fin 3 → List (List ℚ)) (progress_bar : Bool) :
    (Fin 3 → List (List ℚ)) × List String :=
  ((fun c => (List.range (R 2).length).map (fun i =>
      (List.range ((R 2).getD i []).length).map (fun j =>
        f (fun a => idx2 (R a) i j) (fun a => idx2 (V a) i j) c))),
   if progress_bar then
     (List.range (R 2).length).map (fun i => "completed row " ++ toString i)
   else [])

/-- The position argument the notebooks pass to the force evaluation:
`[np.zeros(X.shape), np.zeros(X.shape), X]` with `X, V = np.meshgrid(x, v)`. -/
def Rgrid (x v : List ℚ) : Fin 3 → List (List ℚ) :=
  ![zerosLike (meshgridX x v), zerosLike (meshgridX x v), meshgridX x v]

/-- The velocity argument the notebooks pass to the force evaluation:
`[np.zeros(V.shape), np.zeros(V.shape), V]` with `X, V = np.meshgrid(x, v)`. -/
def Vgrid (x v : List ℚ) : Fin 3 → List (List ℚ) :=
  ![zerosLike (meshgridV x v), zerosLike (meshgridV x v), meshgridV x v]

/-! ### The sweep loop over configurations -/

/-- One successful sweep iteration per configuration: `sweepRun G ev pols`
maps each configuration `(label, parameters)` to `(label, result)` where the
result comes from evaluating the external routine on the full grid `G`.
This is the loop `for key_beam in pols: ... obe[key_beam] = ...;
obe[key_beam].generate_force_profile(...)` of `two_three_forces.ipynb` in
the case where every evaluation succeeds. -/
def sweepRun {Pol Res Grid : Type} (G : Grid) (ev : String → Pol → Grid → Res)
    (pols : List (String × Pol)) : List (String × Res) :=
  pols.map (fun e => (e.1, ev e.1 e.2 G))

/-- The sweep loop with failure: iterate over the configuration list in
order, invoking the (fallible) external evaluation once per configuration
with the full grid `G`.  Returns the invocation trace (which configurations
were invoked, each with the grid it received) and either the accumulated
result mapping or the first raised error.  The loop installs no handler, so
an error ends the iteration immediately and is returned unchanged. -/
def sweepTrace {ε Pol Res Grid : Type} (G : Grid)
    (ev : String → Pol → Grid → Except ε Res) :
    List (String × Pol) → List (String × Grid) × Except ε (List (String × Res))
  | [] => ([], Except.ok [])
  | (k, p) :: rest =>
    match ev k p G with
    | Except.error e => ([(k, G)], Except.error e)
    | Except.ok r =>
      let tail := sweepTrace G ev rest
      ((k, G) :: tail.1,
       match tail.2 with
       | Except.error e => Except.error e
       | Except.ok l => Except.ok ((k, r) :: l))

/-! ### Configuration constants of the two notebooks -/

/-- The arguments with which the notebooks construct the force-evaluation
object (`pylcp.rateeq` / `pylcp.obe`): the magnetic field specification, the
`include_mag_forces` flag, and which model ("rateeq" or "obe") is used. -/
structure TrapConfig where
  magField : Fin 3 → ℚ
  include_mag_forces : Bool
  model : String

/-- `pylcp.constantMagneticField(B)`: the spatially constant field `B`. -/
def constantMagneticField (B : Fin 3 → ℚ) : Fin 3 → ℚ := B

/-- Both notebooks set
`magField = pylcp.constantMagneticField(np.array([0., 0., 0.]))`. -/
def magField : Fin 3 → ℚ := constantMagneticField ![0, 0, 0]

/-- `part_000`'s trap construction: `pylcp.rateeq(laserBeams_D2, magField,
hamiltonian_D2, include_mag_forces=False)` when `eq == "rateeq"`, else
`pylcp.obe(...)` with the same field and flag. -/
def trap_D2 (eq : String) : TrapConfig :=
  if eq = "rateeq" then ⟨magField, false, "rateeq"⟩
  else ⟨magField, false, "obe"⟩

/-- The polarization dictionary of `two_three_forces.ipynb`: a single key
mapped to the pair of polarization vectors `([0,0,1], [1,0,0])`. -/
def pols : List (String × ((Fin 3 → ℚ) × (Fin 3 → ℚ))) :=
  [("$\\sigma^+\\sigma^-$", (![0, 0, 1], ![1, 0, 0]))]

/-- The `obe` dictionary built by the sweep loop of `two_three_forces.ipynb`:
for each polarization key, a `pylcp.obe` object constructed with `magField`
and `include_mag_forces=False`. -/
def obe : List (String × TrapConfig) :=
  pols.map (fun e => (e.1, ⟨magField, false, "obe"⟩))

/-! ### The claim C2 scenario -/

/-- Position sequence of the spec's example scenario: fixed at `[0.0]`. -/
def x_C2 : List ℚ := [0]

/-- Velocity sequence of the spec's example scenario: `[0.01, 0.5, 2.5]`. -/
def v_C2 : List ℚ := [1/100, 1/2, 5/2]

/-- Run of the example scenario through the sweep: the single configuration
label `"default"`, evaluated by `generate_force_profile` on the meshgrid of
`x_C2` and `v_C2`. -/
def scenario_C2 (f : (Fin 3 → ℚ) → (Fin 3 → ℚ) → Fin 3 → ℚ) (pb : Bool) :
    List (String × (Fin 3 → List (List ℚ))) :=
  sweepRun (gridPairs x_C2 v_C2)
    (fun _ _ _ => (generate_force_profile f (Rgrid x_C2 v_C2) (Vgrid x_C2 v_C2) pb).1)
    [("default", ())]

/-- The force array of the example scenario at a concrete (constant-zero)
physics function, with the progress bar enabled. -/
def F_C2 : Fin 3 → List (List ℚ) :=
  (generate_force_profile (fun _ _ _ => 0) (Rgrid x_C2 v_C2) (Vgrid x_C2 v_C2) true).1

/-! ### Shape of the stored force array -/

theorem length_meshgridX (x v : List ℚ) : (meshgridX x v).length = v.length := by
  simp [meshgridX]

theorem getD_meshgridX (x v : List ℚ) (i : ℕ) (h : i < v.length) :
    (meshgridX x v).getD i [] = x := by
  simp [meshgridX, List.getD_eq_getElem?_getD, List.getElem?_replicate, h]

theorem Rgrid_two (x v : List ℚ) : Rgrid x v 2 = meshgridX x v := rfl

/-- The stored force array has one row per velocity sample and one entry per
position sample in every row: component `c`'s list of row lengths is
`x.length`, repeated `v.length` times. -/
theorem gfp_meshgrid_shape (f : (Fin 3 → ℚ) → (Fin 3 → ℚ) → Fin 3 → ℚ)
    (x v : List ℚ) (pb : Bool) (c : Fin 3) :
    ((generate_force_profile f (Rgrid x v) (Vgrid x v) pb).1 c).map List.length
      = List.replicate v.length x.length := by
  have key : ∀ i ∈ List.range v.length,
      ((Rgrid x v 2).getD i []).length = x.length := by
    intro i hi
    rw [Rgrid_two, getD_meshgridX x v i (List.mem_range.mp hi)]
  simp only [generate_force_profile, List.map_map, Function.comp]
  rw [show (Rgrid x v 2).length = v.length from length_meshgridX x v]
  rw [List.map_congr_left (fun i hi => by
    simpa using congrArg id (key i hi))]
  · simp [List.map_const']

/-- C1: For every grid of `P` position values and `V` velocity values fed
through `np.meshgrid` as in the notebooks, the stored force array has three
components, each holding one value per grid point, of shape matching the
grid — `v.length` rows of `x.length` entries each, i.e. `(3, V, P)`, an
axis-order equivalent of `(3, P, V)`; in particular a single-point grid
(`P = 1`, `V = 1`) yields a `(3, 1, 1)` array `[[q]]` for each component,
without error. -/
theorem force_profile_shape :
    (∀ (f : (Fin 3 → ℚ) → (Fin 3 → ℚ) → Fin 3 → ℚ) (x v : List ℚ) (pb : Bool)
        (c : Fin 3),
        ((generate_force_profile f (Rgrid x v) (Vgrid x v) pb).1 c).map List.length
          = List.replicate v.length x.length)
    ∧ ∀ (f : (Fin 3 → ℚ) → (Fin 3 → ℚ) → Fin 3 → ℚ) (x0 v0 : ℚ) (pb : Bool)
        (c : Fin 3),
        ∃ q, (generate_force_profile f (Rgrid [x0] [v0]) (Vgrid [x0] [v0]) pb).1 c
          = [[q]] :=
  ⟨gfp_meshgrid_shape, fun _ _ _ _ _ => ⟨_, rfl⟩⟩

/-- C2 counterexample: in the example scenario (velocities `[0.01, 0.5, 2.5]`,
position fixed at `[0.0]`, single configuration label `"default"`) the result
mapping does hold exactly one entry keyed `"default"`, but its force array
has three velocity rows of one position entry each — shape `(3, 3, 1)`,
row-length list `[1, 1, 1]` — not the claimed shape `(3, 1, 3)`, whose
row-length list would be `[3]`. -/
theorem scenario_default_shape_cex :
    scenario_C2 (fun _ _ _ => 0) true = [("default", F_C2)]
    ∧ (F_C2 0).map List.length = [1, 1, 1]
    ∧ ¬ (F_C2 0).map List.length = [3] :=
  ⟨rfl, of_decide_eq_true (by with_unfolding_all rfl),
    of_decide_eq_true (by with_unfolding_all rfl)⟩

/-- C2 amended: for the example scenario the result mapping has exactly one
entry, keyed `"default"`, and its force array has shape `(3, 3, 1)` — three
force components, one row per velocity sample, one position entry per row —
so the velocity axis comes before the position axis (the transpose of the
claimed `(3, 1, 3)`). -/
theorem scenario_default_shape (f : (Fin 3 → ℚ) → (Fin 3 → ℚ) → Fin 3 → ℚ)
    (pb : Bool) :
    ∃ F, scenario_C2 f pb = [("default", F)]
      ∧ ∀ c, (F c).map List.length = List.replicate 3 1 :=
  ⟨_, rfl, fun c => by simpa using gfp_meshgrid_shape f x_C2 v_C2 pb c⟩

/-- C8: progress reporting is purely observational: the stored force array —
and with it every entry of a result mapping built from it — is identical
whether the progress-bar flag is enabled or disabled; only the console
output differs. -/
theorem progress_bar_observational
    (f : (Fin 3 → ℚ) → (Fin 3 → ℚ) → Fin 3 → ℚ) (R V : Fin 3 → List (List ℚ)) :
    (generate_force_profile f R V true).1 = (generate_force_profile f R V false).1
    ∧ ∀ (ps : List (String × Unit)) (G : List (ℚ × ℚ)),
        sweepRun G (fun _ _ _ => (generate_force_profile f R V true).1) ps
          = sweepRun G (fun _ _ _ => (generate_force_profile f R V false).1) ps :=
  ⟨rfl, fun _ _ => rfl⟩

/-- C3 counterexample: the `part_000` grid does contain a duplicated
`(position, velocity)` pair.  `v_part000` concatenates
`linspace(0.01, 0.5, 10)` — whose last sample is exactly `0.5` — with
`linspace(0.5, 2.5, 5)` — whose first sample is exactly `0.5` — so the grid
pair `(0.0, 0.5)` occurs twice and is evaluated twice by the single
`generate_force_profile` call. -/
theorem grid_pairs_dup_cex :
    (gridPairs x_part000 v_part000).count ((0 : ℚ), (1/2 : ℚ)) = 2
    ∧ ¬ (gridPairs x_part000 v_part000).Nodup :=
  of_decide_eq_true (by with_unfolding_all rfl)

/-- C3 amended: the at-most-once invariant fails in both notebooks.  In
`part_000` the grid pair `(0.0, 0.5)` occurs exactly twice — velocity `0.5`
ends `linspace(1e-2, 0.5, 10)` and starts `linspace(0.5, 2.5, 5)` — while
every other `part_000` pair occurs exactly once; in `two_three_forces`,
whose binary64 grid has 148 points, the pair `(0.0, 0.1)` occurs exactly
twice — the eighth sample of `np.arange(0.03, 0.1, 0.01)` is exactly the
double `0.1`, which is also the first sample of `np.arange(0.1, 5.1, 0.1)` —
and each duplicated pair is evaluated twice by its profile's evaluation. -/
theorem grid_pairs_dup_amended :
    (gridPairs x_part000 v_part000).count ((0 : ℚ), (1/2 : ℚ)) = 2
    ∧ ((gridPairs x_part000 v_part000).all
        (fun p => p == ((0 : ℚ), (1/2 : ℚ))
          || (gridPairs x_part000 v_part000).count p == 1)) = true
    ∧ v_two_three.length = 148
    ∧ gridPairs_two_three.count ((0 : ℤ), toF64 (1/10)) = 2 :=
  ⟨of_decide_eq_true (by with_unfolding_all rfl),
    by with_unfolding_all rfl,
    by with_unfolding_all rfl,
    by with_unfolding_all rfl⟩

/-- C10: every velocity value in either notebook's grid is nonzero — the
`part_000` sequence starts at `0.01` and stays at or above it, and every one
of the 148 binary64 samples of the `two_three_forces` sequence is at most
`-1/500` or at least `1/1000` (in the `2^64`-scaled representation,
`500 * z ≤ -2^64` or `2^64 ≤ 1000 * z`), skipping the interval around zero:
zero velocity is never evaluated. -/
theorem grid_velocities_nonzero :
    (v_part000.all (fun q => q != 0)) = true
    ∧ v_part000.head? = some (1/100)
    ∧ (v_part000.all (fun q => decide ((1/100 : ℚ) ≤ q))) = true
    ∧ v_two_three.length = 148
    ∧ (v_two_three.all (fun z => z != 0)) = true
    ∧ (v_two_three.all
        (fun z => decide (500 * z ≤ -(2 ^ 64)) || decide ((2 ^ 64 : ℤ) ≤ 1000 * z))) = true :=
  ⟨by with_unfolding_all rfl, by with_unfolding_all rfl,
    by with_unfolding_all rfl, by with_unfolding_all rfl,
    by with_unfolding_all rfl, by with_unfolding_all rfl⟩

/-! ### Behaviour of the sweep loop -/

/-- When the external evaluation succeeds on every configuration, the sweep
invokes it once per configuration with the full grid and accumulates one
result per label, in order. -/
theorem sweepTrace_ok {ε Pol Res Grid : Type} (G : Grid)
    (ev : String → Pol → Grid → Except ε Res) (f : String → Pol → Grid → Res)
    (pls : List (String × Pol))
    (hok : ∀ q ∈ pls, ev q.1 q.2 G = Except.ok (f q.1 q.2 G)) :
    sweepTrace G ev pls
      = (pls.map (fun q => (q.1, G)), Except.ok (sweepRun G f pls)) := by
  induction pls with
  | nil => rfl
  | cons hd tl ih =>
    obtain ⟨k, p⟩ := hd
    have h1 : ev k p G = Except.ok (f k p G) := hok (k, p) (by simp)
    have h2 := ih (fun q hq => hok q (List.mem_cons_of_mem _ hq))
    simp only [sweepTrace, h1, h2, sweepRun, List.map_cons]

/-- Looking a label up in the result mapping of a successful sweep returns
that configuration's own result, provided the labels are distinct. -/
theorem lookup_sweepRun {Pol Res Grid : Type} (G : Grid)
    (f : String → Pol → Grid → Res) (pls : List (String × Pol))
    (hnd : (pls.map Prod.fst).Nodup) (q : String × Pol) (hq : q ∈ pls) :
    (sweepRun G f pls).lookup q.1 = some (f q.1 q.2 G) := by
  induction pls with
  | nil => cases hq
  | cons hd tl ih =>
    rcases List.mem_cons.mp hq with heq | htl
    · subst heq
      simp [sweepRun, List.lookup]
    · have hne : q.1 ≠ hd.1 := by
        intro h
        have : hd.1 ∈ tl.map Prod.fst := h ▸ List.mem_map_of_mem Prod.fst htl
        exact (List.nodup_cons.mp hnd).1 this
      have hb : (q.1 == hd.1) = false := beq_eq_false_iff_ne.mpr hne
      have := ih (List.nodup_cons.mp hnd).2 htl
      simpa [sweepRun, List.lookup, hb] using this

theorem sweepRun_keys {Pol Res Grid : Type} (G : Grid)
    (f : String → Pol → Grid → Res) (pls : List (String × Pol)) :
    (sweepRun G f pls).map Prod.fst = pls.map Prod.fst := by
  simp [sweepRun]

/-- C4: for every configuration set, the sweep invokes the external
evaluation exactly once per configuration, each time with the full grid, and
after a successful run the result mapping has exactly `N = pls.length`
entries, keyed in order by the configurations' labels. -/
theorem sweep_once_per_config {ε Pol Res Grid : Type} (G : Grid)
    (ev : String → Pol → Grid → Except ε Res) (f : String → Pol → Grid → Res)
    (pls : List (String × Pol))
    (hok : ∀ q ∈ pls, ev q.1 q.2 G = Except.ok (f q.1 q.2 G)) :
    (sweepTrace G ev pls).1 = pls.map (fun q => (q.1, G))
    ∧ (sweepTrace G ev pls).2 = Except.ok (sweepRun G f pls)
    ∧ (sweepRun G f pls).length = pls.length
    ∧ (sweepRun G f pls).map Prod.fst = pls.map Prod.fst := by
  have h := sweepTrace_ok G ev f pls hok
  exact ⟨by rw [h], by rw [h], by simp [sweepRun], sweepRun_keys G f pls⟩

/-- A trivially succeeding external evaluation used to instantiate the sweep
theorems at the concrete configuration set of `two_three_forces.ipynb`. -/
def evalOkDemo : String → ((Fin 3 → ℚ) × (Fin 3 → ℚ)) → List (ℤ × ℤ) → Except Unit ℕ :=
  fun _ _ _ => Except.ok 0

theorem sweep_once_per_config_wit :
    (sweepTrace gridPairs_two_three evalOkDemo pols).1
        = pols.map (fun q => (q.1, gridPairs_two_three))
    ∧ (sweepTrace gridPairs_two_three evalOkDemo pols).2
        = Except.ok (sweepRun gridPairs_two_three (fun _ _ _ => 0) pols)
    ∧ (sweepRun gridPairs_two_three (fun _ _ _ => (0 : ℕ)) pols).length = pols.length
    ∧ (sweepRun gridPairs_two_three (fun _ _ _ => (0 : ℕ)) pols).map Prod.fst
        = pols.map Prod.fst :=
  sweep_once_per_config gridPairs_two_three evalOkDemo (fun _ _ _ => 0) pols
    (fun _ _ => rfl)

/-- C5: each configuration's result is written exactly once to its own slot:
a successful sweep returns exactly the per-configuration map, looking up any
configuration's label (labels being distinct) yields that configuration's own
result, and the results of any prefix of the configuration list are final —
extending the sweep with further configurations only appends to the mapping
and leaves the prefix's entries unchanged. -/
theorem sweep_slots_write_once {ε Pol Res Grid : Type} (G : Grid)
    (ev : String → Pol → Grid → Except ε Res) (f : String → Pol → Grid → Res)
    (pls : List (String × Pol))
    (hok : ∀ q ∈ pls, ev q.1 q.2 G = Except.ok (f q.1 q.2 G))
    (hnd : (pls.map Prod.fst).Nodup) :
    (sweepTrace G ev pls).2 = Except.ok (sweepRun G f pls)
    ∧ ((sweepRun G f pls).map Prod.fst).Nodup
    ∧ (∀ q ∈ pls, (sweepRun G f pls).lookup q.1 = some (f q.1 q.2 G))
    ∧ ∀ l1 l2, pls = l1 ++ l2 →
        (sweepTrace G ev l1).2 = Except.ok (sweepRun G f l1)
        ∧ sweepRun G f pls = sweepRun G f l1 ++ sweepRun G f l2 := by
  refine ⟨by rw [sweepTrace_ok G ev f pls hok], ?_, lookup_sweepRun G f pls hnd, ?_⟩
  · rw [sweepRun_keys]; exact hnd
  · intro l1 l2 hsplit
    subst hsplit
    constructor
    · rw [sweepTrace_ok G ev f l1 (fun q hq => hok q (List.mem_append_left l2 hq))]
    · simp [sweepRun]

theorem sweep_slots_write_once_wit :
    (sweepTrace gridPairs_two_three evalOkDemo pols).2
        = Except.ok (sweepRun gridPairs_two_three (fun _ _ _ => 0) pols)
    ∧ ((sweepRun gridPairs_two_three (fun _ _ _ => (0 : ℕ)) pols).map Prod.fst).Nodup
    ∧ (∀ q ∈ pols, (sweepRun gridPairs_two_three (fun _ _ _ => (0 : ℕ)) pols).lookup q.1
        = some 0)
    ∧ ∀ l1 l2, pols = l1 ++ l2 →
        (sweepTrace gridPairs_two_three evalOkDemo l1).2
          = Except.ok (sweepRun gridPairs_two_three (fun _ _ _ => 0) l1)
        ∧ sweepRun gridPairs_two_three (fun _ _ _ => (0 : ℕ)) pols
          = sweepRun gridPairs_two_three (fun _ _ _ => 0) l1
            ++ sweepRun gridPairs_two_three (fun _ _ _ => 0) l2 :=
  sweep_slots_write_once gridPairs_two_three evalOkDemo (fun _ _ _ => 0) pols
    (fun _ _ => rfl) (by simp [pols])

/-- C6: if the external evaluation raises, the sweep neither catches nor
retries: the invocation trace stops at the failing configuration (later
configurations are never evaluated) and the raised error is returned to the
caller unchanged. -/
theorem sweep_error_propagates {ε Pol Res Grid : Type} (G : Grid)
    (ev : String → Pol → Grid → Except ε Res) (f : String → Pol → Grid → Res)
    (pre : List (String × Pol)) (k : String) (p : Pol)
    (post : List (String × Pol)) (e : ε)
    (hpre : ∀ q ∈ pre, ev q.1 q.2 G = Except.ok (f q.1 q.2 G))
    (herr : ev k p G = Except.error e) :
    sweepTrace G ev (pre ++ (k, p) :: post)
      = (pre.map (fun q => (q.1, G)) ++ [(k, G)], Except.error e) := by
  induction pre with
  | nil => simp only [List.nil_append, sweepTrace, herr, List.map_nil]
  | cons hd tl ih =>
    obtain ⟨k', p'⟩ := hd
    have h1 : ev k' p' G = Except.ok (f k' p' G) := hpre (k', p') (by simp)
    have h2 := ih (fun q hq => hpre q (List.mem_cons_of_mem _ hq))
    simp only [List.cons_append, sweepTrace, h1, List.append_eq, h2, List.map_cons]

/-- A demonstration evaluator that fails on the label `"bad"` and succeeds
elsewhere, used to instantiate the error-propagation theorem. -/
def evalErrDemo : String → Unit → Unit → Except ℕ ℕ :=
  fun k _ _ => if k = "bad" then Except.error 42 else Except.ok 0

theorem sweep_error_propagates_wit :
    sweepTrace () evalErrDemo ([("a", ())] ++ ("bad", ()) :: [("c", ())])
      = ([("a", ()), ("bad", ())], Except.error 42) :=
  sweep_error_propagates () evalErrDemo (fun _ _ _ => 0) [("a", ())] "bad" ()
    [("c", ())] 42
    (fun q hq => by
      have : q = ("a", ()) := by simpa using hq
      rw [this]; rfl)
    rfl

/-- C7: the sweep adds no nondeterminism of its own: its entire output
(invocation trace and result mapping) is determined by the configuration
list, the grid, and the input-output behaviour of the external evaluator, so
two runs with identical inputs and extensionally equal deterministic
evaluators produce identical — bit-for-bit equal — outputs. -/
theorem sweep_deterministic {ε Pol Res Grid : Type} (G : Grid)
    (ev1 ev2 : String → Pol → Grid → Except ε Res)
    (h : ∀ k p, ev1 k p G = ev2 k p G) (pls : List (String × Pol)) :
    sweepTrace G ev1 pls = sweepTrace G ev2 pls := by
  induction pls with
  | nil => rfl
  | cons hd tl ih =>
    obtain ⟨k, p⟩ := hd
    simp only [sweepTrace, h k p, ih]

theorem sweep_deterministic_wit :
    sweepTrace gridPairs_two_three evalOkDemo pols
      = sweepTrace gridPairs_two_three (fun _ _ _ => Except.ok 0) pols :=
  sweep_deterministic gridPairs_two_three evalOkDemo (fun _ _ _ => Except.ok 0)
    (fun _ _ => rfl) pols

/-- C9: every force-evaluation object constructed in either notebook — the
`rateeq`/`obe` trap of `part_000` for either value of the `eq` switch, and
the `obe` objects built for every polarization key of `two_three_forces` —
uses the identically zero constant magnetic field and is constructed with
`include_mag_forces=False`. -/
theorem configs_zero_field_no_mag_forces :
    (∀ eq : String, (trap_D2 eq).include_mag_forces = false
      ∧ ∀ c, (trap_D2 eq).magField c = 0)
    ∧ (obe.all (fun o => !o.2.include_mag_forces)) = true
    ∧ (obe.all (fun o => decide (∀ c, o.2.magField c = 0))) = true
    ∧ obe.map Prod.fst = pols.map Prod.fst := by
  refine ⟨fun eq => ?_, ?_, ?_, rfl⟩
  · have hm : ∀ c, magField c = 0 := by
      intro c; fin_cases c <;> rfl
    unfold trap_D2
    split <;> exact ⟨rfl, hm⟩
  · rfl
  · simp [obe, pols, magField, constantMagneticField]
    intro c; fin_cases c <;> rfl

end ForceCalculations
